import Mathlib

/-!
Shallow embedding of the package acquisition-and-build pipeline of
`scripts/build-ffmpeg.py` and `scripts/build-ffmpeg-min.py`.

Pure computations (hash chunking, channel filtering, argument assembly,
package-list construction) are translated directly as Lean functions.
Effectful steps (directory creation, network fetch, hash verification,
build invocations) are modelled as an explicit event trace, with the
filesystem / network outcomes supplied as an environment parameter
(`FetchEnv` per package).  Exceptions are modelled with `Except`.
-/

namespace FFBuild

/-- Modelled from the spec: the visibility tag of the descriptor data model
(`When` in the external `cibuildpkg` module, which is not part of the two
script sources).  The spec lists exactly the three values unrestricted /
community-only / commercial-only, and the scripts compare the field against
`When.community_only` and `When.commercial_only`. -/
inductive When where
  | unrestricted
  | community_only
  | commercial_only
deriving DecidableEq, Repr

/-- Modelled from the spec: the `Package` descriptor record of `cibuildpkg`
(not part of the two script sources), restricted to the fields the scripts
actually use.  Defaults follow the constructor calls in the scripts: an
omitted `when` means the untagged / unrestricted visibility. -/
structure Package where
  name : String
  source_url : String
  source_filename : Option String := none
  sha256 : String
  build_system : String := "autoconf"
  build_arguments : List String := []
  build_parallel : Bool := true
  whenTag : When := When.unrestricted
  source_dir : String := ""
  requires : List String := []
deriving DecidableEq, Repr

/-! ### IntegrityVerifier: `calculate_sha256`

`calculate_sha256` reads the file in blocks of 4096 bytes
(`iter(lambda: f.read(4096), b"")`) and feeds each block to the running
sha256 state.  The sha256 state is modelled by the byte sequence absorbed so
far (`update` appends the block); the final `hexdigest()` is an arbitrary
function `digest` of the absorbed sequence, supplied as a parameter since
`hashlib` is an external collaborator. -/

/-- The chunking performed by `iter(lambda: f.read(n), b"")`: repeatedly take
the next `n` bytes until the read returns the empty block.  (`f.read 0`
returns the empty block at once, so chunk size `0` yields no chunks.) -/
def readChunks (n : Nat) (c : List Nat) : List (List Nat) :=
  if h : c = [] ∨ n = 0 then []
  else
    c.take n :: readChunks n (c.drop n)
termination_by c.length
decreasing_by
  simp only [List.length_drop]
  push_neg at h
  exact Nat.sub_lt (List.length_pos.mpr h.1) (Nat.pos_of_ne_zero h.2)

/-- `sha256_hash.update(byte_block)`: the absorbed sequence grows by the
block. -/
def sha256_update (state block : List Nat) : List Nat :=
  state ++ block

/-- `calculate_sha256(filename)`: fold the 4096-byte blocks of the file's
contents into a fresh hash state and take the digest of the result. -/
def calculate_sha256 (digest : List Nat → String) (contents : List Nat) : String :=
  digest (List.foldl sha256_update [] (readChunks 4096 contents))

theorem foldl_sha256_update (acc : List Nat) (l : List (List Nat)) :
    List.foldl sha256_update acc l = acc ++ List.foldl sha256_update [] l := by
  induction l generalizing acc with
  | nil => simp
  | cons b l ih =>
    simp only [List.foldl_cons, sha256_update, List.nil_append]
    rw [ih (acc ++ b), ih b, List.append_assoc]

theorem readChunks_flatten_aux (n : Nat) (hn : 0 < n) :
    ∀ (len : Nat) (c : List Nat), c.length ≤ len →
      List.foldl sha256_update [] (readChunks n c) = c := by
  intro len
  induction len with
  | zero =>
    intro c hc
    have : c = [] := List.length_eq_zero.mp (Nat.le_zero.mp hc)
    rw [this, readChunks]
    simp
  | succ k ih =>
    intro c hc
    rw [readChunks]
    by_cases hnil : c = []
    · simp [hnil]
    · have hguard : ¬(c = [] ∨ n = 0) := by
        push_neg
        exact ⟨hnil, Nat.pos_iff_ne_zero.mp hn⟩
      rw [dif_neg hguard]
      simp only [List.foldl_cons, sha256_update, List.nil_append]
      rw [foldl_sha256_update]
      have hdrop : (c.drop n).length ≤ k := by
        rw [List.length_drop]
        have h1 : 1 ≤ c.length := List.length_pos.mpr hnil
        omega
      rw [ih (c.drop n) hdrop]
      exact List.take_append_drop n c

theorem readChunks_flatten (n : Nat) (hn : 0 < n) (c : List Nat) :
    List.foldl sha256_update [] (readChunks n c) = c :=
  readChunks_flatten_aux n hn c.length c le_rfl

/-! ### ConcurrentFetcher: `download_and_verify_package` and `download_tars`

The filesystem / network outcome for one package is an environment record:
whether the tarball already exists locally, whether a network fetch would
succeed (`fetch` writes the full file or raises
`subprocess.CalledProcessError`), and the sha256 of the local file's
contents once it exists. -/

/-- Modelled from the spec: the outcome of the external collaborators
(filesystem existence check and the `fetch` network primitive of
`cibuildpkg`, which is not part of the two script sources) for one package's
tarball. -/
structure FetchEnv where
  existsBefore : Bool
  transportOk : Bool
  actualHash : String
deriving DecidableEq, Repr

/-- The exceptions the pipeline can raise: the two `ValueError`s of
`download_and_verify_package`, and the `AttributeError` raised when the
channel filter reads `.when` on `None`. -/
inductive PipeError where
  | missingSource (tarball : String)
  | hashMismatch (name expected actual : String)
  | attributeNone
deriving DecidableEq, Repr

/-- Observable side effects of the pipeline, in program order. -/
inductive Event where
  | createDirs
  | runCmd (argv : List String)
  | fetchNet (name : String)
  | verifySha (name : String)
  | build (name : String) (forBuilder : Bool)
  | packageOutput
deriving DecidableEq, Repr

/-- `str.split("/")` over the character list. -/
def splitSlash : List Char → List (List Char)
  | [] => [[]]
  | c :: cs =>
    match splitSlash cs with
    | [] => [[]]
    | r :: rs => if c = '/' then [] :: r :: rs else (c :: r) :: rs

/-- `os.path.join(os.path.abspath("source"), package.source_filename or
package.source_url.split("/")[-1])`, with the absolute source-cache
directory written as `source`; `[-1]` is the last split component. -/
def tarballPath (p : Package) : String :=
  "source/" ++
    p.source_filename.getD
      (String.mk ((splitSlash p.source_url.data).reverse.headD []))

/-- After the body of `download_and_verify_package` runs its existence check
and (possibly) its fetch attempt, the tarball exists iff it existed before
or the transport call succeeded (a raised transport error leaves no file
and is suppressed). -/
def fileExistsAfter (env : FetchEnv) : Bool :=
  env.existsBefore || env.transportOk

/-- `download_and_verify_package(package)`: skip the fetch when the tarball
already exists; otherwise attempt the fetch, suppressing
`subprocess.CalledProcessError`; then re-check existence and raise
`ValueError` on a missing file; finally compute the sha256 and raise
`ValueError` carrying both hashes on mismatch.  Returns the events
performed and the task's outcome. -/
def download_and_verify_package (env : FetchEnv) (p : Package) :
    List Event × Except PipeError Unit :=
  let tarball := tarballPath p
  let fetchEvents : List Event :=
    if env.existsBefore then [] else [Event.fetchNet p.name]
  if fileExistsAfter env = false then
    (fetchEvents, Except.error (PipeError.missingSource tarball))
  else
    let sha := env.actualHash
    if p.sha256 = sha then
      (fetchEvents ++ [Event.verifySha p.name], Except.ok ())
    else
      (fetchEvents ++ [Event.verifySha p.name],
       Except.error (PipeError.hashMismatch p.name p.sha256 sha))

def taskEvents (env : String → FetchEnv) (p : Package) : List Event :=
  (download_and_verify_package (env p.name) p).1

def taskResult (env : String → FetchEnv) (p : Package) : Except PipeError Unit :=
  (download_and_verify_package (env p.name) p).2

/-- The `as_completed` loop of `download_tars`, over the `(name, outcome)`
pairs of the futures in completion order: each successful future is
discarded; at the first failed future its package name is printed and the
exception is re-raised, without inspecting the remaining futures. -/
def download_tars_loop :
    List (String × Except PipeError Unit) → List String × Except PipeError Unit
  | [] => ([], Except.ok ())
  | (_, Except.ok _) :: rest => download_tars_loop rest
  | (n, Except.error e) :: _ => ([n], Except.error e)

/-- The first failing task in a given (completion) order, with its name. -/
def firstFailure (env : String → FetchEnv) : List Package → Option (String × PipeError)
  | [] => none
  | p :: rest =>
    match taskResult env p with
    | Except.ok _ => firstFailure env rest
    | Except.error e => some (p.name, e)

/-- `download_tars(packages)`: every submitted task runs to completion (the
executor's shutdown on leaving the `with` block drains all submitted work,
raised exception or not), so the trace holds every task's events; the
printed failure names and the returned/raised outcome come from the
`as_completed` loop.  `co` is the completion order of the futures, a
permutation of the submission order chosen by the scheduler. -/
def download_tars (env : String → FetchEnv) (co : List Package) :
    List Event × (List String × Except PipeError Unit) :=
  (co.flatMap (taskEvents env),
   download_tars_loop (co.map (fun p => (p.name, taskResult env p))))

theorem download_tars_loop_eq (rs : List (String × Except PipeError Unit)) :
    download_tars_loop rs =
      match rs.find? (fun r => !(r.2 matches Except.ok _)) with
      | none => ([], Except.ok ())
      | some (n, Except.ok _) => ([n], Except.ok ())
      | some (n, Except.error e) => ([n], Except.error e) := by
  induction rs with
  | nil => rfl
  | cons r rest ih =>
    obtain ⟨n, res⟩ := r
    cases res with
    | ok u => simpa [download_tars_loop, List.find?] using ih
    | error e => simp [download_tars_loop, List.find?]

theorem download_tars_loop_ok_of_all_ok
    (rs : List (String × Except PipeError Unit))
    (h : ∀ r ∈ rs, r.2 = Except.ok ()) :
    download_tars_loop rs = ([], Except.ok ()) := by
  induction rs with
  | nil => rfl
  | cons r rest ih =>
    obtain ⟨n, res⟩ := r
    have hr : res = Except.ok () := h (n, res) (List.mem_cons_self _ _)
    subst hr
    exact ih (fun r hr => h r (List.mem_cons_of_mem _ hr))

theorem download_tars_loop_error_of_mem
    (rs : List (String × Except PipeError Unit))
    (n : String) (e : PipeError) (h : (n, Except.error e) ∈ rs) :
    ∃ n' e', download_tars_loop rs = ([n'], Except.error e') := by
  induction rs with
  | nil => cases h
  | cons r rest ih =>
    obtain ⟨m, res⟩ := r
    cases res with
    | ok u =>
      cases u
      rcases List.mem_cons.mp h with heq | hmem
      · cases heq
      · exact ih hmem
    | error e' => exact ⟨m, e', rfl⟩

/-! ### ConditionalFilter: the channel-filter loop of `main`

```
filtered_packages = []
for package in packages:
    if package.when == When.community_only and not community: continue
    if package.when == When.commercial_only and community: continue
    filtered_packages.append(package)
```
-/

/-- The loop body's decision: `true` when the package is appended. -/
def keepPkg (p : Package) (community : Bool) : Bool :=
  !(p.whenTag == When.community_only && !community) &&
    !(p.whenTag == When.commercial_only && community)

/-- The filter loop over a list of well-formed descriptors. -/
def filter_packages : List Package → Bool → List Package
  | [], _ => []
  | p :: rest, community =>
    if p.whenTag == When.community_only && !community then
      filter_packages rest community
    else if p.whenTag == When.commercial_only && community then
      filter_packages rest community
    else
      p :: filter_packages rest community

/-- The same loop over the actual Python list, whose elements may be `None`
(`alsa_package`): reading `.when` on `None` raises `AttributeError`. -/
def filter_packages_opt : List (Option Package) → Bool → Except PipeError (List Package)
  | [], _ => Except.ok []
  | none :: _, _ => Except.error PipeError.attributeNone
  | some p :: rest, community =>
    match filter_packages_opt rest community with
    | Except.error e => Except.error e
    | Except.ok tail =>
      Except.ok (if p.whenTag == When.community_only && !community then tail
        else if p.whenTag == When.commercial_only && community then tail
        else p :: tail)

theorem filter_packages_eq_filter (l : List Package) (community : Bool) :
    filter_packages l community = l.filter (fun p => keepPkg p community) := by
  induction l with
  | nil => rfl
  | cons p rest ih =>
    by_cases h1 : p.whenTag == When.community_only && !community
    · simp [filter_packages, h1, keepPkg, List.filter, ih]
    · by_cases h2 : p.whenTag == When.commercial_only && community
      · simp [filter_packages, h1, h2, keepPkg, List.filter, ih]
      · simp [filter_packages, h1, h2, keepPkg, List.filter, ih]

theorem filter_packages_opt_map_some (l : List Package) (community : Bool) :
    filter_packages_opt (l.map some) community =
      Except.ok (filter_packages l community) := by
  induction l with
  | nil => rfl
  | cons p rest ih =>
    by_cases h1 : p.whenTag == When.community_only && !community
    · simp [filter_packages_opt, ih, filter_packages, h1]
    · by_cases h2 : p.whenTag == When.commercial_only && community
      · simp [filter_packages_opt, ih, filter_packages, h1, h2]
      · simp [filter_packages_opt, ih, filter_packages, h1, h2]

/-! ### The declared package sets

`build-ffmpeg.py` (the full profile).  The module-level groups
`library_group` and `gnutls_group` are empty lists, `alsa_package` is
`None` (and in the full script the `use_alsa` branch appends the empty
list, with `alsa_package` commented out). -/

def codec_group (plat : String) (musl : Bool) : List Package :=
  [ { name := "libsvtav1"
    , source_url := "https://gitlab.com/AOMediaCodec/SVT-AV1/-/archive/v3.0.1/SVT-AV1-v3.0.1.tar.bz2"
    , sha256 := "f1d1ad8db551cd84ab52ae579b0e5086d8a0b7e47aea440e75907242a51b4cb9"
    , build_system := "cmake" }
  , { name := "x264"
    , source_url := "https://code.videolan.org/videolan/x264/-/archive/32c3b801191522961102d4bea292cdb61068d0dd/x264-32c3b801191522961102d4bea292cdb61068d0dd.tar.bz2"
    , sha256 := "d7748f350127cea138ad97479c385c9a35a6f8527bc6ef7a52236777cf30b839"
    , build_arguments := if musl then ["--disable-asm"] else []
    , build_parallel := plat ≠ "Windows"
    , whenTag := When.community_only }
  , { name := "x265"
    , source_url := "https://bitbucket.org/multicoreware/x265_git/downloads/x265_4.1.tar.gz"
    , sha256 := "a31699c6a89806b74b0151e5e6a7df65de4b49050482fe5ebf8a4379d7af8f29"
    , build_system := "cmake"
    , source_dir := "source"
    , whenTag := When.community_only } ]

def nvheaders_package : Package :=
  { name := "nv-codec-headers"
  , source_url := "https://github.com/FFmpeg/nv-codec-headers/archive/refs/tags/n13.0.19.0.tar.gz"
  , sha256 := "86d15d1a7c0ac73a0eafdfc57bebfeba7da8264595bf531cf4d8db1c22940116"
  , build_system := "make" }

def ffmpeg_package0 (plat : String) : Package :=
  { name := "ffmpeg"
  , source_url := "https://ffmpeg.org/releases/ffmpeg-7.1.1.tar.xz"
  , sha256 := "733984395e0dbbe5c046abda2dc49a5544e7e0e1e2366bba849222ae9e3a03b1"
  , build_arguments := []
  , build_parallel := plat ≠ "Windows" }

def gperf_package : Package :=
  { name := "gperf"
  , source_url := "http://ftp.gnu.org/pub/gnu/gperf/gperf-3.1.tar.gz"
  , sha256 := "588546b945bba4b70b6a3a616e80b4ab466e3f33024a352fc2198112cdbb3ae2" }

def nasm_package : Package :=
  { name := "nasm"
  , source_url := "https://www.nasm.us/pub/nasm/releasebuilds/2.14.02/nasm-2.14.02.tar.bz2"
  , sha256 := "34fd26c70a277a9fdd54cb5ecf389badedaf48047b269d1008fbc819b24e80bc" }

/-- The `build_tools` list of `main`: `gperf` unless already available
(Windows provides it), `nasm` unless already available or the machine is
arm64 / aarch64. -/
def build_tools (plat machine : String) : List Package :=
  let available : List String := if plat = "Windows" then ["gperf", "nasm"] else []
  (if ("gperf") ∈ available then [] else [gperf_package]) ++
    (if ("nasm") ∉ available ∧ machine ∉ (["arm64", "aarch64"] : List String) then
      [nasm_package] else [])

/-! ### PlatformArgumentAssembler

The assignment to `ffmpeg_package.build_arguments` in `main`, followed by
its conditional `extend` calls, as a pure function of the platform string
and the community flag (`use_cuda` is derived from the platform). -/

/-- The argument list assembled for the composite `ffmpeg` package in
`build-ffmpeg.py` (lines 176-250). -/
def ffmpeg_args_full (plat : String) (community : Bool) : List String :=
  let use_cuda : Bool := plat = "Linux" ∨ plat = "Windows"
  let args : List String :=
    [ "--disable-doc"
    , "--disable-libtheora"
    , "--disable-libfreetype"
    , "--disable-libfontconfig"
    , "--disable-libbluray"
    , "--disable-libopenjpeg"
    , if plat = "Windows" then ("--enable-mediafoundation") else ("--disable-mediafoundation")
    , "--enable-libsvtav1"
    , "--enable-zlib" ]
  let args := if use_cuda then args ++ ["--enable-nvenc", "--enable-nvdec"] else args
  let args :=
    if community then
      args ++ ["--enable-libx264", "--enable-libx265", "--enable-gpl"]
    else
      args ++ ["--enable-libx264", "--enable-libx265", "--enable-gpl"]
  let args :=
    if plat = "Darwin" then
      args ++ ["--enable-videotoolbox", "--enable-audiotoolbox",
        "--extra-ldflags=-Wl,-ld_classic"]
    else args
  args ++
    [ "--disable-encoder=avui,dca,mlp,opus,s302m,sonic,sonic_ls,truehd,vorbis"
    , "--disable-decoder=sonic"
    , "--disable-libjack"
    , "--disable-indev=jack" ]

/-- The argument list assembled for the composite `ffmpeg` package in
`build-ffmpeg-min.py` (lines 175-236). -/
def ffmpeg_args_min (plat : String) (community : Bool) : List String :=
  let use_cuda : Bool := plat = "Linux" ∨ plat = "Windows"
  let args : List String :=
    [ "--disable-programs"
    , "--disable-ffmpeg"
    , "--disable-ffplay"
    , "--disable-ffprobe"
    , "--disable-doc"
    , "--disable-htmlpages"
    , "--disable-manpages"
    , "--disable-podpages"
    , "--disable-txtpages"
    , "--enable-version3"
    , "--disable-libxml2"
    , "--disable-lzma"
    , "--disable-libtheora"
    , "--disable-libfreetype"
    , "--disable-libfontconfig"
    , "--disable-libbluray"
    , "--disable-libopenjpeg"
    , "--disable-mediafoundation"
    , "--disable-gmp"
    , "--disable-alsa"
    , "--disable-gnutls"
    , "--disable-libaom"
    , "--enable-libdav1d"
    , "--disable-libmp3lame"
    , "--disable-libopencore-amrnb"
    , "--disable-libopencore-amrwb"
    , "--disable-libopus"
    , "--disable-libspeex"
    , "--enable-libsvtav1"
    , "--disable-libsrt"
    , "--disable-libtwolame"
    , "--disable-libvorbis"
    , "--disable-libvpx"
    , "--disable-libwebp"
    , "--disable-libopenh264"
    , "--disable-libxcb"
    , "--disable-zlib"
    , "--enable-libx264"
    , "--disable-libx265" ]
  let args := if use_cuda then args ++ ["--enable-nvenc", "--enable-nvdec"] else args
  let args :=
    if plat = "Darwin" then
      args ++ ["--enable-videotoolbox", "--enable-audiotoolbox",
        "--extra-ldflags=-Wl,-ld_classic"]
    else args
  let _ := community
  args ++
    [ "--disable-encoder=avui,dca,mlp,opus,s302m,sonic,sonic_ls,truehd,vorbis"
    , "--disable-decoder=sonic"
    , "--disable-libjack"
    , "--disable-indev=jack" ]

/-! ### The `packages` working lists handed to the channel filter -/

/-- `build-ffmpeg.py` lines 252-261: `library_group[:]`, the empty
`use_alsa` addition (`packages += []`, `alsa_package` commented out),
`nv-codec-headers` when CUDA is usable, the empty `gnutls_group`, the codec
group, and the composite `ffmpeg` package with its assembled arguments.
Every element is a real descriptor, so the list is `None`-free. -/
def packages_full (plat : String) (musl community : Bool) : List Package :=
  let use_alsa : Bool := plat = "Linux"
  let use_cuda : Bool := plat = "Linux" ∨ plat = "Windows"
  let use_gnutls : Bool := plat = "Linux"
  ([] : List Package) ++
    (if use_alsa then [] else []) ++
    (if use_cuda then [nvheaders_package] else []) ++
    (if use_gnutls then [] else []) ++
    codec_group plat musl ++
    [{ ffmpeg_package0 plat with build_arguments := ffmpeg_args_full plat community }]

/-- `build-ffmpeg-min.py` codec group. -/
def codec_group_min (plat : String) (musl : Bool) : List Package :=
  [ { name := "dav1d"
    , source_url := "https://code.videolan.org/videolan/dav1d/-/archive/1.5.1/dav1d-1.5.1.tar.bz2"
    , sha256 := "4eddffd108f098e307b93c9da57b6125224dc5877b1b3d157b31be6ae8f1f093"
    , requires := ["meson", "nasm", "ninja"]
    , build_system := "meson" }
  , { name := "libsvtav1"
    , source_url := "https://gitlab.com/AOMediaCodec/SVT-AV1/-/archive/v3.1.0/SVT-AV1-v3.1.0.tar.bz2"
    , sha256 := "8231b63ea6c50bae46a019908786ebfa2696e5743487270538f3c25fddfa215a"
    , build_system := "cmake" }
  , { name := "x264"
    , source_url := "https://code.videolan.org/videolan/x264/-/archive/32c3b801191522961102d4bea292cdb61068d0dd/x264-32c3b801191522961102d4bea292cdb61068d0dd.tar.bz2"
    , sha256 := "d7748f350127cea138ad97479c385c9a35a6f8527bc6ef7a52236777cf30b839"
    , build_arguments := if musl then ["--disable-asm"] else []
    , build_parallel := plat ≠ "Windows"
    , whenTag := When.community_only } ]

def ffmpeg_package0_min (plat : String) : Package :=
  { name := "ffmpeg"
  , source_url := "https://ffmpeg.org/releases/ffmpeg-8.0.tar.xz"
  , sha256 := "b2751fccb6cc4c77708113cd78b561059b6fa904b24162fa0be2d60273d27b8e"
  , build_arguments := []
  , build_parallel := plat ≠ "Windows" }

/-- `build-ffmpeg-min.py` lines 238-247: the working list as built in
Python, where `packages += [alsa_package]` appends the module-level
`alsa_package = None` on Linux.  Elements are therefore `Option Package`. -/
def packages_min (plat : String) (musl community : Bool) : List (Option Package) :=
  let use_alsa : Bool := plat = "Linux"
  let use_cuda : Bool := plat = "Linux" ∨ plat = "Windows"
  let use_gnutls : Bool := plat = "Linux"
  ([] : List (Option Package)) ++
    (if use_alsa then [none] else []) ++
    (if use_cuda then [some nvheaders_package] else []) ++
    (if use_gnutls then [] else []) ++
    (codec_group_min plat musl).map some ++
    [some { ffmpeg_package0_min plat with
              build_arguments := ffmpeg_args_min plat community }]

/-! ### BuildOrchestrator: the body of `main`

Both scripts share the same skeleton after argument parsing:
short-circuit on an existing output tarball; `builder.create_directories()`;
on Windows, `run(["where", tool])` for each expected tool; `pip install`;
(pure) tool-list construction, argument assembly and channel filtering;
`download_tars(build_tools + filtered_packages)`; then the two sequential
build loops (`for_builder=True` for tools, destination prefix for
packages); finally the platform fixups / strip / tar steps, summarized as
one `packageOutput` event (the spec treats packaging and stripping as
external collaborators). -/

structure MainResult where
  trace : List Event
  exit : Except PipeError Unit
deriving Repr

def windows_tools : List String :=
  ["gcc", "g++", "curl", "gperf", "ld", "nasm", "pkg-config"]

def pip_install_cmd : List String :=
  ["pip", "install", "cmake==3.31.6", "meson", "ninja"]

/-- The effects performed before the channel filter runs. -/
def preEvents (plat : String) : List Event :=
  Event.createDirs ::
    ((if plat = "Windows" then
        windows_tools.map (fun t => Event.runCmd ["where", t]) else []) ++
      [Event.runCmd pip_install_cmd])

/-- The common body of `main` in both scripts.  `outExists` is whether the
final output tarball already exists; `tools` is `build_tools`;
`packagesOpt` is the working list handed to the channel filter; `env` gives
each package's filesystem / network outcome (keyed by package name); `co`
is the completion order of the fetch futures. -/
def pipeline (plat : String) (outExists : Bool) (tools : List Package)
    (packagesOpt : List (Option Package)) (community : Bool)
    (env : String → FetchEnv) (co : List Package) : MainResult :=
  if outExists then ⟨[], Except.ok ()⟩
  else
    match filter_packages_opt packagesOpt community with
    | Except.error e => ⟨preEvents plat, Except.error e⟩
    | Except.ok filtered =>
      let dt := download_tars env co
      match dt.2.2 with
      | Except.error e => ⟨preEvents plat ++ dt.1, Except.error e⟩
      | Except.ok _ =>
        ⟨preEvents plat ++ dt.1 ++
            (tools.map (fun t => Event.build t.name true) ++
              filtered.map (fun p => Event.build p.name false)) ++
            [Event.packageOutput],
          Except.ok ()⟩

/-- `main` of `build-ffmpeg.py`. -/
def main_full (plat machine : String) (musl community outExists : Bool)
    (env : String → FetchEnv) (co : List Package) : MainResult :=
  pipeline plat outExists (build_tools plat machine)
    ((packages_full plat musl community).map some) community env co

/-- `main` of `build-ffmpeg-min.py`. -/
def main_min (plat machine : String) (musl community outExists : Bool)
    (env : String → FetchEnv) (co : List Package) : MainResult :=
  pipeline plat outExists (build_tools plat machine)
    (packages_min plat musl community) community env co

/-- The full set of descriptors submitted to `download_tars` in
`build-ffmpeg.py`: `build_tools + filtered_packages`, in submission
order. -/
def scheduled_full (plat machine : String) (musl community : Bool) : List Package :=
  build_tools plat machine ++
    filter_packages (packages_full plat musl community) community

/-! ### Helper lemmas about the pipeline -/

def isBuildEvent : Event → Bool
  | Event.build _ _ => true
  | _ => false

theorem build_not_in_taskEvents (env : String → FetchEnv) (p : Package)
    (n : String) (fb : Bool) : Event.build n fb ∉ taskEvents env p := by
  unfold taskEvents download_and_verify_package
  by_cases heb : (env p.name).existsBefore <;>
    by_cases hex : fileExistsAfter (env p.name) = false <;>
      by_cases hsha : p.sha256 = (env p.name).actualHash <;>
        simp [heb, hex, hsha]

theorem build_not_in_preEvents (plat : String) (n : String) (fb : Bool) :
    Event.build n fb ∉ preEvents plat := by
  unfold preEvents windows_tools pip_install_cmd
  by_cases hw : plat = "Windows" <;> simp [hw]

theorem isBuildEvent_false_of_preEvents (plat : String) (e : Event)
    (he : e ∈ preEvents plat) : isBuildEvent e = false := by
  cases e
  case build n fb => exact absurd he (build_not_in_preEvents plat n fb)
  all_goals rfl

theorem isBuildEvent_false_of_taskEvents (env : String → FetchEnv)
    (p : Package) (e : Event) (he : e ∈ taskEvents env p) :
    isBuildEvent e = false := by
  cases e
  case build n fb => exact absurd he (build_not_in_taskEvents env p n fb)
  all_goals rfl

/-- When the channel filter succeeds and the `as_completed` loop raises,
`main`'s body stops right after the fetch phase: the trace is the
pre-filter effects plus every fetch task's effects, and the exception
propagates. -/
theorem pipeline_error_of_loop_error (plat : String) (tools : List Package)
    (packagesOpt : List (Option Package)) (community : Bool)
    (env : String → FetchEnv) (co : List Package)
    (filtered : List Package) (n' : String) (e' : PipeError)
    (hfilter : filter_packages_opt packagesOpt community = Except.ok filtered)
    (hloop : download_tars_loop (co.map (fun p => (p.name, taskResult env p))) =
      ([n'], Except.error e')) :
    pipeline plat false tools packagesOpt community env co =
      ⟨preEvents plat ++ co.flatMap (taskEvents env), Except.error e'⟩ := by
  unfold pipeline download_tars
  simp [hfilter, hloop]

/-- When the channel filter succeeds and every fetch task succeeds,
`main`'s body runs to the end: pre-filter effects, all fetch effects, the
tools-phase builds in declared order into the builder prefix, the
package-phase builds in declared order into the destination prefix, and
the final packaging. -/
theorem pipeline_ok_of_all_ok (plat : String) (tools : List Package)
    (packagesOpt : List (Option Package)) (community : Bool)
    (env : String → FetchEnv) (co : List Package) (filtered : List Package)
    (hfilter : filter_packages_opt packagesOpt community = Except.ok filtered)
    (hall : ∀ p ∈ co, taskResult env p = Except.ok ()) :
    pipeline plat false tools packagesOpt community env co =
      ⟨preEvents plat ++ co.flatMap (taskEvents env) ++
          (tools.map (fun t => Event.build t.name true) ++
            filtered.map (fun p => Event.build p.name false)) ++
          [Event.packageOutput],
        Except.ok ()⟩ := by
  have hloop : download_tars_loop (co.map (fun p => (p.name, taskResult env p))) =
      ([], Except.ok ()) := by
    apply download_tars_loop_ok_of_all_ok
    intro r hr
    obtain ⟨q, hq, hqr⟩ := List.mem_map.mp hr
    subst hqr
    exact hall q hq
  unfold pipeline download_tars
  simp [hfilter, hloop]

/-! ### Concrete environments used by the witnesses -/

deriving instance DecidableEq for Except

/-- Every tarball absent and every transport call failing. -/
def env_allfail : String → FetchEnv := fun _ => ⟨false, false, ""⟩

/-- Every tarball already present, with contents hashing to `"0"` (which
matches no declared hash). -/
def env_mismatch : String → FetchEnv := fun _ => ⟨true, false, "0"⟩

/-- Every tarball already present with the declared contents of the
schedule `[gperf, libsvtav1, ffmpeg]` (macOS/arm64, default channel). -/
def env_good : String → FetchEnv := fun n =>
  if n = "gperf" then
    ⟨true, false, "588546b945bba4b70b6a3a616e80b4ab466e3f33024a352fc2198112cdbb3ae2"⟩
  else if n = "libsvtav1" then
    ⟨true, false, "f1d1ad8db551cd84ab52ae579b0e5086d8a0b7e47aea440e75907242a51b4cb9"⟩
  else
    ⟨true, false, "733984395e0dbbe5c046abda2dc49a5544e7e0e1e2366bba849222ae9e3a03b1"⟩

/-! ### The claims -/

/-- C2: each per-descriptor fetch task skips the network fetch iff the
archive already exists; a transport failure is suppressed and, if the file
is still absent after the attempt, the task fails with the missing-source
error; if the file is present its sha256 is compared to the declared hash,
failing with an error carrying both the expected and the actual hash on
mismatch and succeeding on match. -/
theorem C2_fetch_task_behavior (env : FetchEnv) (p : Package) :
    ((Event.fetchNet p.name ∈ (download_and_verify_package env p).1) ↔
      env.existsBefore = false) ∧
    (fileExistsAfter env = false →
      (download_and_verify_package env p).2 =
        Except.error (PipeError.missingSource (tarballPath p))) ∧
    (fileExistsAfter env = true → p.sha256 ≠ env.actualHash →
      (download_and_verify_package env p).2 =
        Except.error (PipeError.hashMismatch p.name p.sha256 env.actualHash)) ∧
    (fileExistsAfter env = true → p.sha256 = env.actualHash →
      (download_and_verify_package env p).2 = Except.ok ()) := by
  obtain ⟨eb, tk, ah⟩ := env
  by_cases hsha : p.sha256 = ah <;>
    cases eb <;> cases tk <;>
      simp [download_and_verify_package, fileExistsAfter, hsha]

theorem C2_fetch_task_behavior_witness :
    (download_and_verify_package ⟨true, false, "0"⟩ gperf_package).2 =
      Except.error (PipeError.hashMismatch ("gperf")
        "588546b945bba4b70b6a3a616e80b4ab466e3f33024a352fc2198112cdbb3ae2" "0") :=
  (C2_fetch_task_behavior ⟨true, false, "0"⟩ gperf_package).2.2.1 rfl (by decide)

/-- C3 counterexample: submit `gperf` then `nasm`, both tasks failing
(no file, transport down), with `nasm`'s future completing first.  The
loop logs only `nasm` — the submission-earlier failing package `gperf` is
never logged — and re-raises `nasm`'s failure, not the first failure in
task-submission order. -/
theorem C3_counterexample :
    List.Perm [nasm_package, gperf_package] [gperf_package, nasm_package] ∧
    taskResult env_allfail gperf_package =
      Except.error (PipeError.missingSource ("source/gperf-3.1.tar.gz")) ∧
    taskResult env_allfail nasm_package =
      Except.error (PipeError.missingSource ("source/nasm-2.14.02.tar.bz2")) ∧
    (download_tars env_allfail [nasm_package, gperf_package]).2 =
      (["nasm"], Except.error (PipeError.missingSource ("source/nasm-2.14.02.tar.bz2"))) ∧
    "gperf" ∉ (download_tars env_allfail [nasm_package, gperf_package]).2.1 ∧
    (download_tars env_allfail [nasm_package, gperf_package]).2.2 ≠
      Except.error (PipeError.missingSource ("source/gperf-3.1.tar.gz")) := by
  refine ⟨by decide, by decide, by decide, by decide, by decide, by decide⟩

/-- C3 amended: `download_tars` drains every submitted task (the trace
holds every task's events), but logs only the name of the first failing
task in completion order and re-raises that first-completed failure;
later failures are neither logged nor re-raised. -/
theorem C3_amended_first_completed_failure (env : String → FetchEnv)
    (co : List Package) :
    (download_tars env co).1 = co.flatMap (taskEvents env) ∧
    (download_tars env co).2 =
      (match firstFailure env co with
       | none => ([], Except.ok ())
       | some (n, e) => ([n], Except.error e)) := by
  refine ⟨rfl, ?_⟩
  unfold download_tars
  induction co with
  | nil => rfl
  | cons p rest ih =>
    simp only [List.map_cons, firstFailure]
    cases h : taskResult env p with
    | ok u =>
      cases u
      simpa [download_tars_loop, h] using ih
    | error e =>
      simp [download_tars_loop, h]

/-- C4: the channel filter keeps a community-only descriptor iff the
channel is community, keeps a commercial-only descriptor iff the channel
is not community, always keeps untagged descriptors, and preserves the
relative order of kept descriptors (it is `List.filter` of the keep
predicate). -/
theorem C4_channel_filter (l : List Package) (community : Bool)
    (p : Package) (hp : p ∈ l) :
    (p ∈ filter_packages l community ↔
      ((p.whenTag = When.community_only → community = true) ∧
        (p.whenTag = When.commercial_only → community = false))) ∧
    filter_packages l community = l.filter (fun q => keepPkg q community) := by
  refine ⟨?_, filter_packages_eq_filter l community⟩
  rw [filter_packages_eq_filter, List.mem_filter]
  cases hw : p.whenTag <;> cases community <;> simp [keepPkg, hw, hp]

theorem C4_channel_filter_witness :
    (gperf_package ∈ filter_packages [gperf_package] false ↔
      ((gperf_package.whenTag = When.community_only → false = true) ∧
        (gperf_package.whenTag = When.commercial_only → false = false))) ∧
    filter_packages [gperf_package] false =
      [gperf_package].filter (fun q => keepPkg q false) :=
  C4_channel_filter [gperf_package] false gperf_package (by decide)

/-- C5 counterexample: with the channel not community, the assembled
argument list of the composite ffmpeg package still contains the
patent/license-encumbered flags `--enable-libx264`, `--enable-libx265`
and `--enable-gpl` (build-ffmpeg.py appends the same three flags in both
branches of `if community:`). -/
theorem C5_counterexample :
    "--enable-libx264" ∈ ffmpeg_args_full ("Linux") false ∧
    "--enable-libx265" ∈ ffmpeg_args_full ("Linux") false ∧
    "--enable-gpl" ∈ ffmpeg_args_full ("Linux") false := by
  refine ⟨by decide, by decide, by decide⟩

/-- C5 amended: the encumbered flags are channel-independent — in
`build-ffmpeg.py` all of `--enable-libx264`, `--enable-libx265` and
`--enable-gpl` are present for every platform and channel, and in
`build-ffmpeg-min.py` `--enable-libx264` is always present while
`--enable-libx265` and `--enable-gpl` are never present. -/
theorem C5_amended_flags_channel_independent (plat : String) (community : Bool) :
    ("--enable-libx264" ∈ ffmpeg_args_full plat community ∧
      "--enable-libx265" ∈ ffmpeg_args_full plat community ∧
      "--enable-gpl" ∈ ffmpeg_args_full plat community) ∧
    ("--enable-libx264" ∈ ffmpeg_args_min plat community ∧
      "--enable-libx265" ∉ ffmpeg_args_min plat community ∧
      "--enable-gpl" ∉ ffmpeg_args_min plat community) := by
  simp only [ffmpeg_args_full, ffmpeg_args_min]
  split_ifs <;> simp_all

/-- C7: when the final output tarball already exists, both entry points
return immediately with success and an empty effect trace — no fetch, no
verification, no build, no directory creation. -/
theorem C7_short_circuit (plat machine : String) (musl community : Bool)
    (env : String → FetchEnv) (co : List Package) :
    main_full plat machine musl community true env co = ⟨[], Except.ok ()⟩ ∧
      main_min plat machine musl community true env co = ⟨[], Except.ok ()⟩ :=
  ⟨rfl, rfl⟩

/-- C8: feeding a file to the sha256 state in 4096-byte blocks absorbs
exactly the file's contents, so the digest equals the digest of the whole
contents hashed at once, for every contents (zero-byte, shorter than one
block, or spanning several blocks) and every digest function of the
absorbed stream. -/
theorem C8_chunked_sha256_eq_whole (digest : List Nat → String)
    (contents : List Nat) :
    calculate_sha256 digest contents = digest contents := by
  unfold calculate_sha256
  rw [readChunks_flatten 4096 (by norm_num) contents]

/-- C9: the argument assembly for the composite ffmpeg package is a pure
function of the platform and channel facts (the hardware fact `use_cuda`
is itself derived from the platform): equal facts yield identical ordered
argument lists in both scripts. -/
theorem C9_assembly_deterministic (plat₁ plat₂ : String) (c₁ c₂ : Bool)
    (hplat : plat₁ = plat₂) (hc : c₁ = c₂) :
    ffmpeg_args_full plat₁ c₁ = ffmpeg_args_full plat₂ c₂ ∧
      ffmpeg_args_min plat₁ c₁ = ffmpeg_args_min plat₂ c₂ := by
  subst hplat; subst hc; exact ⟨rfl, rfl⟩

theorem C9_assembly_deterministic_witness :
    ffmpeg_args_full ("Linux") true = ffmpeg_args_full ("Linux") true ∧
      ffmpeg_args_min ("Linux") true = ffmpeg_args_min ("Linux") true :=
  C9_assembly_deterministic ("Linux") "Linux" true true rfl rfl

/-- C1: if any scheduled descriptor's local archive hashes differently
from its declared sha256, the fetch phase raises (whatever completion
order the futures take) and no `builder.build` step executes for any
descriptor, tool or package. -/
theorem C1_no_build_after_hash_mismatch (plat machine : String)
    (musl community : Bool) (env : String → FetchEnv) (co : List Package)
    (p : Package)
    (hperm : List.Perm co (scheduled_full plat machine musl community))
    (hp : p ∈ scheduled_full plat machine musl community)
    (hex : fileExistsAfter (env p.name) = true)
    (hne : p.sha256 ≠ (env p.name).actualHash) :
    (∃ e, (main_full plat machine musl community false env co).exit =
      Except.error e) ∧
    (∀ n fb, Event.build n fb ∉
      (main_full plat machine musl community false env co).trace) := by
  have hpco : p ∈ co := hperm.mem_iff.mpr hp
  have htask : taskResult env p =
      Except.error (PipeError.hashMismatch p.name p.sha256 (env p.name).actualHash) := by
    unfold taskResult download_and_verify_package
    simp [hex, hne]
  have hmem : (p.name,
      Except.error (PipeError.hashMismatch p.name p.sha256 (env p.name).actualHash)) ∈
        co.map (fun q => (q.name, taskResult env q)) :=
    List.mem_map.mpr ⟨p, hpco, by rw [htask]⟩
  obtain ⟨n', e', hloop⟩ := download_tars_loop_error_of_mem _ _ _ hmem
  have hmain : main_full plat machine musl community false env co =
      ⟨preEvents plat ++ co.flatMap (taskEvents env), Except.error e'⟩ := by
    unfold main_full
    exact pipeline_error_of_loop_error plat (build_tools plat machine) _
      community env co _ n' e' (filter_packages_opt_map_some _ community) hloop
  rw [hmain]
  refine ⟨⟨e', rfl⟩, ?_⟩
  intro n fb hin
  rcases List.mem_append.mp hin with h | h
  · exact build_not_in_preEvents plat n fb h
  · obtain ⟨q, _, hq2⟩ := List.mem_flatMap.mp h
    exact build_not_in_taskEvents env q n fb hq2

theorem C1_no_build_after_hash_mismatch_witness :
    (∃ e, (main_full ("Darwin") "arm64" false false false env_mismatch
      (scheduled_full ("Darwin") "arm64" false false)).exit = Except.error e) ∧
    (∀ n fb, Event.build n fb ∉
      (main_full ("Darwin") "arm64" false false false env_mismatch
        (scheduled_full ("Darwin") "arm64" false false)).trace) :=
  C1_no_build_after_hash_mismatch ("Darwin") "arm64" false false env_mismatch
    (scheduled_full ("Darwin") "arm64" false false) gperf_package
    (List.Perm.refl _) (by decide) rfl (by decide)

/-- C6: when every fetch task succeeds, the build steps of `main` are
exactly the tools-phase descriptors in declared order with
`for_builder=true` followed by the package-phase descriptors in declared
order into the destination prefix — so within a phase a later descriptor
builds only after an earlier one, and no package-phase build precedes a
tools-phase build. -/
theorem C6_two_phase_build_order (plat machine : String)
    (musl community : Bool) (env : String → FetchEnv) (co : List Package)
    (hperm : List.Perm co (scheduled_full plat machine musl community))
    (hok : ∀ q ∈ scheduled_full plat machine musl community,
      taskResult env q = Except.ok ()) :
    (main_full plat machine musl community false env co).trace.filter
        isBuildEvent =
      (build_tools plat machine).map (fun t => Event.build t.name true) ++
        (filter_packages (packages_full plat musl community) community).map
          (fun q => Event.build q.name false) := by
  have hall : ∀ q ∈ co, taskResult env q = Except.ok () := fun q hq =>
    hok q (hperm.mem_iff.mp hq)
  have hmain := pipeline_ok_of_all_ok plat (build_tools plat machine)
    ((packages_full plat musl community).map some) community env co
    (filter_packages (packages_full plat musl community) community)
    (filter_packages_opt_map_some _ community) hall
  unfold main_full
  rw [hmain]
  have h1 : (preEvents plat).filter isBuildEvent = [] :=
    List.filter_eq_nil_iff.mpr (fun e he => by
      simp [isBuildEvent_false_of_preEvents plat e he])
  have h2 : (co.flatMap (taskEvents env)).filter isBuildEvent = [] :=
    List.filter_eq_nil_iff.mpr (fun e he => by
      obtain ⟨q, _, hq2⟩ := List.mem_flatMap.mp he
      simp [isBuildEvent_false_of_taskEvents env q e hq2])
  have h3 : ∀ (l : List Package) (fb : Bool),
      (l.map (fun q => Event.build q.name fb)).filter isBuildEvent =
        l.map (fun q => Event.build q.name fb) :=
    fun l fb => List.filter_eq_self.mpr (fun e he => by
      obtain ⟨q, _, hq2⟩ := List.mem_map.mp he
      rw [← hq2]; rfl)
  simp only [List.filter_append, h1, h2, h3, List.nil_append]
  simp [isBuildEvent]

theorem C6_two_phase_build_order_witness :
    (main_full ("Darwin") "arm64" false false false env_good
        (scheduled_full ("Darwin") "arm64" false false)).trace.filter
        isBuildEvent =
      (build_tools ("Darwin") "arm64").map (fun t => Event.build t.name true) ++
        (filter_packages (packages_full ("Darwin") false false) false).map
          (fun q => Event.build q.name false) :=
  C6_two_phase_build_order ("Darwin") "arm64" false false env_good
    (scheduled_full ("Darwin") "arm64" false false) (List.Perm.refl _) (by decide)

/-- C10: in `build-ffmpeg-min.py`, on Linux the working list handed to
the channel filter contains `None` (`alsa_package`), the filter's access
to the visibility tag on `None` raises, and `main` fails before any fetch
(the trace holds only the pre-filter effects, which include no fetch);
on every other platform the list holds only well-formed descriptors. -/
theorem C10_min_alsa_none_on_linux (machine : String) (musl community : Bool)
    (env : String → FetchEnv) (co : List Package) (plat : String)
    (hplat : plat ≠ "Linux") :
    none ∈ packages_min ("Linux") musl community ∧
    filter_packages_opt (packages_min ("Linux") musl community) community =
      Except.error PipeError.attributeNone ∧
    main_min ("Linux") machine musl community false env co =
      ⟨preEvents ("Linux"), Except.error PipeError.attributeNone⟩ ∧
    (∀ n, Event.fetchNet n ∉ preEvents ("Linux")) ∧
    (∀ x ∈ packages_min plat musl community, x ≠ none) := by
  refine ⟨by simp [packages_min], rfl, rfl, ?_, ?_⟩
  · intro n
    simp [preEvents, windows_tools, pip_install_cmd]
  · intro x hx
    by_cases hw : plat = "Windows"
    · simp [packages_min, codec_group_min, hplat, hw] at hx
      rcases hx with rfl | rfl | rfl | rfl | rfl <;> simp
    · simp [packages_min, codec_group_min, hplat, hw] at hx
      rcases hx with rfl | rfl | rfl | rfl <;> simp

theorem C10_min_alsa_none_on_linux_witness :
    main_min ("Linux") "x86_64" false false false env_allfail [] =
      ⟨preEvents ("Linux"), Except.error PipeError.attributeNone⟩ :=
  (C10_min_alsa_none_on_linux ("x86_64") false false env_allfail [] "Darwin"
    (by decide)).2.2.1

end FFBuild
